import Mathlib

/-!
Verification development for the long-poll generation client in
`scripts/programmable-object-test.py`.

The script drives a remote "object generation" HTTP API: it creates a
generation task, repeatedly long-polls `/objects/:id?wait=true` until the
client-chosen version reaches a terminal status, then downloads the
resulting artifact.  We embed the pure decision logic of the script —
response classification, the task-lookup helpers, the polling loop with
its overall deadline, and the error paths of the HTTP helpers — as Lean
functions.  Network I/O is modelled by handing each function the transport
result it would have observed: a status code together with the parsed
body (or `none` when the body is not valid JSON) and the raw body text.
Wall-clock readings (`time.perf_counter()`) are modelled as integers
supplied with each polling step (the loop only compares clock readings
and adds the timeout to one, so any linearly ordered additive time domain
is faithful; integers keep every comparison kernel-computable).

Python exceptions are modelled by an error inductive whose constructors
correspond to the distinct raise sites of the script; the specification's
error taxonomy (`RequestError`, `NotFoundError`, `GenerationFailedError`,
`TimeoutError`, `DecodeError`) maps onto those sites, plus `TypeError` /
`KeyError` for the id-extraction slips in `create_generation`.
-/

set_option autoImplicit false

namespace ObjGen

/-- Python `x or default` for an optional string field of a dict:
both a missing key (`None`) and the empty string are falsy. -/
def pyOr (x : Option String) (default : String) : String :=
  match x with
  | none => default
  | some s => if s = "" then default else s

/-- Error values, one constructor per family of raise sites in the script.
`requestError`, `notFound`, `generationFailed` and `decodeError` are all
`RuntimeError` in Python, distinguished here by raise site as in the
specification's error taxonomy; `timeout` is Python's `TimeoutError`,
`typeError` is `TypeError`, and `keyError` models the `KeyError` raised by
a `dict[...]` lookup on a missing key. -/
inductive AppError where
  | requestError (msg : String)
  | notFound (msg : String)
  | generationFailed (msg : String)
  | timeout (msg : String)
  | decodeError (msg : String)
  | typeError (msg : String)
  | keyError (key : String)
  deriving DecidableEq

/-- One entry of the server's `tasks` list: a JSON dict whose `version`,
`status` and `error` keys may each be absent (`none`). -/
structure TaskRecord where
  version : Option String
  status : Option String
  error : Option String
  deriving DecidableEq

/-- The object state returned in `data` by the wait endpoint.  `tasks` is
`none` when the key is absent or `null`; `state.get("tasks") or []`
then yields the empty list. -/
structure ObjectState where
  tasks : Option (List TaskRecord)
  deriving DecidableEq

/-- `get_version_task`: first task record whose `version` field equals the
requested version.  A matching dict necessarily contains the `version` key,
so it is non-empty and Python's truthiness test on it reduces to the
`Option` being `some`. -/
def get_version_task (state : ObjectState) (version : String) : Option TaskRecord :=
  (state.tasks.getD []).find? (fun t => t.version == some version)

/-- `get_version_status`: the task's `status` string when it is one of the
three recognised statuses, `none` otherwise (task absent, status key
absent, or unrecognised status value). -/
def get_version_status (state : ObjectState) (version : String) : Option String :=
  match get_version_task state version with
  | none => none
  | some t =>
    match t.status with
    | none => none
    | some st =>
      if st = "processing" ∨ st = "succeeded" ∨ st = "failed" then some st else none

/-- `raise_if_failed`: `some e` when the function would raise, `none` when
it returns normally.  It raises `RuntimeError(t.get("error") or
"Generation failed")` exactly when the version's task exists and its
status is `"failed"`. -/
def raise_if_failed (state : ObjectState) (version : String) : Option AppError :=
  match get_version_task state version with
  | none => none
  | some t =>
    if t.status = some "failed" then
      some (.generationFailed (pyOr t.error "Generation failed"))
    else
      none

/-- Result of one HTTP exchange as observed by `_sync_http_json` before any
JSON handling: either `urlopen` succeeded (`ok`, a 2xx/3xx status) or it
raised `error.HTTPError` (`httpError`).  `parsed` is the JSON-decoded body
(`none` when the body is not valid JSON) and `raw` the decoded body text. -/
inductive HttpTransport (α : Type) where
  | ok (status : Nat) (parsed : Option α) (raw : String)
  | httpError (code : Nat) (parsed : Option α) (raw : String)
  deriving DecidableEq

/-- `_read_json_bytes`: returns the parsed dict, or raises
`RuntimeError(f"Non-JSON response: {raw[:200]!r}")` when the body is not
valid JSON (the `!r` repr wrapper around the truncated bytes is elided;
no property depends on the exact text). -/
def read_json_bytes {α : Type} (parsed : Option α) (raw : String) : Except AppError α :=
  match parsed with
  | some j => .ok j
  | none => .error (.decodeError ("Non-JSON response: " ++ raw.take 200))

/-- `_sync_http_json`: on a successful `urlopen` the body must parse as
JSON (else the `_read_json_bytes` error propagates); on `HTTPError` the
error body is parsed leniently, falling back to the synthetic envelope
`\x7b"success": False, "error": <body text>\x7d` when it is not JSON.
`fallback` builds that synthetic envelope in the endpoint's body type. -/
def sync_http_json {α : Type} (fallback : String → α) :
    HttpTransport α → Except AppError (Nat × α)
  | .ok status parsed raw =>
    match read_json_bytes parsed raw with
    | .ok j => .ok (status, j)
    | .error e => .error e
  | .httpError code parsed raw =>
    match parsed with
    | some j => .ok (code, j)
    | none => .ok (code, fallback raw)

/-- Placeholder for Python's repr of a response dict interpolated into
fallback error messages (`f"Wait failed: {resp}"` and similar); no claim
depends on that interpolated text. -/
def reprPlaceholder : String := "<resp>"

/-- Body of a response from the wait endpoint `/objects/:id?wait=true`:
the `success` flag (Python truthiness of `resp.get("success")`), the
optional `error` string, and the `data` object state (`none` when the
`data` key is absent, in which case `resp["data"]` raises `KeyError`). -/
structure WaitBody where
  success : Bool
  error : Option String
  data : Option ObjectState
  deriving DecidableEq

/-- Synthetic envelope built by `_sync_http_json` for a non-JSON
`HTTPError` body, shaped as a wait-endpoint body. -/
def waitFallback (raw : String) : WaitBody :=
  { success := false, error := some raw, data := none }

/-- A JSON value of which the script only distinguishes "is a string"
(via `isinstance(task_id, str)`) from everything else. -/
inductive JsonVal where
  | jstr (s : String)
  | jother
  deriving DecidableEq

/-- The `data` object of a creation response; `id` is `none` when the key
is absent (then `data["id"]` raises `KeyError`). -/
structure CreateData where
  id : Option JsonVal
  deriving DecidableEq

/-- Body of a response from `POST /generations`. `data = none` means the
`data` key is absent (then `resp["data"]` raises `KeyError`). -/
structure CreateBody where
  success : Bool
  error : Option String
  data : Option CreateData
  deriving DecidableEq

/-- Synthetic envelope for a non-JSON `HTTPError` body, shaped as a
creation-endpoint body. -/
def createFallback (raw : String) : CreateBody :=
  { success := false, error := some raw, data := none }

/-- `make_version`: stringified wall-clock milliseconds,
`str(int(time.time() * 1000))`; the clock reading is an input here. -/
def make_version (now_ms : Nat) : String := toString now_ms

/-- Client-side record of a created generation,
`ObjectMetadata(task_id, version, object_name, object_description)`. -/
structure ObjectMetadata where
  id : String
  version : String
  name : String
  description : String
  deriving DecidableEq

/-- `create_generation`: classifies the creation response.  `object_name`,
`object_description` and `model` only feed the request payload; `ver` is
the `make_version()` result; `t` is the observed HTTP exchange.  The
checks mirror the source order: non-200 status or falsy `success` raises
`RuntimeError` (a `RequestError`), then `resp["data"]["id"]` is extracted
(`KeyError` on a missing key) and checked with `isinstance(task_id, str)`
(`TypeError("id is not string")` otherwise). -/
def create_generation (object_name object_description model ver : String)
    (t : HttpTransport CreateBody) : Except AppError ObjectMetadata :=
  match sync_http_json createFallback t with
  | .error e => .error e
  | .ok (status, resp) =>
    if status ≠ 200 ∨ resp.success = false then
      .error (.requestError (pyOr resp.error ("Failed to create generation: " ++ reprPlaceholder)))
    else
      match resp.data with
      | none => .error (.keyError "data")
      | some d =>
        match d.id with
        | none => .error (.keyError "id")
        | some (.jstr task_id) => .ok ⟨task_id, ver, object_name, object_description⟩
        | some .jother => .error (.typeError "id is not string")

/-- One iteration's observations for the polling loop: the
`time.perf_counter()` value at the top-of-iteration deadline check, and
the HTTP exchange the wait request would observe. -/
structure WaitStep where
  checkTime : ℤ
  transport : HttpTransport WaitBody
  deriving DecidableEq

/-- Result of the polling loop: normal return with the final object state,
a raised error, or `exhausted` when the supplied trace of server
responses ran out while the loop would have kept polling. -/
inductive WaitOutcome where
  | ok (state : ObjectState)
  | err (e : AppError)
  | exhausted
  deriving DecidableEq

/-- A run of the polling loop: its outcome, the number of wait requests it
issued, and the number of client-side `asyncio.sleep(0.1)` calls it
performed (every client-side sleep in the loop is that fixed 0.1-second
sleep on the task-not-yet-visible path). -/
structure WaitRun where
  outcome : WaitOutcome
  requests : Nat
  sleeps : Nat
  deriving DecidableEq

/-- The overall-deadline test at the top of each loop iteration:
`deadline is not None and time.perf_counter() > deadline`, with
`deadline = started_at + overall_timeout_sec`. -/
def past_deadline (overall_timeout_sec : Option Nat) (started_at now : ℤ) : Bool :=
  match overall_timeout_sec with
  | none => false
  | some T => decide (started_at + (T : ℤ) < now)

/-- `wait_until_version_final`: the polling loop of the script, run
against a finite trace of observed iterations.  Each iteration first
checks the overall deadline, then issues the wait request; a 404 raises
`RuntimeError` (`NotFoundError` site), any other non-200 status or falsy
`success` raises `RuntimeError` (`RequestError` site); otherwise
`resp["data"]` is inspected for the version's task: no recognised status
→ `asyncio.sleep(0.1)` and retry, `"processing"` → retry immediately,
`"failed"` → `raise_if_failed` (with an unreachable bare
`RuntimeError("Generation failed")` fallback), anything else (necessarily
`"succeeded"`) → return the state. -/
def wait_until_version_final (version : String) (overall_timeout_sec : Option Nat)
    (started_at : ℤ) : List WaitStep → WaitRun
  | [] => ⟨.exhausted, 0, 0⟩
  | step :: rest =>
    if past_deadline overall_timeout_sec started_at step.checkTime then
      ⟨.err (.timeout ("Overall timeout reached ("
          ++ toString (overall_timeout_sec.getD 0) ++ "s)")), 0, 0⟩
    else
      match sync_http_json waitFallback step.transport with
      | .error e => ⟨.err e, 1, 0⟩
      | .ok (status, resp) =>
        if status = 404 then
          ⟨.err (.notFound (pyOr resp.error "Object not found")), 1, 0⟩
        else if status ≠ 200 ∨ resp.success = false then
          ⟨.err (.requestError (pyOr resp.error ("Wait failed: " ++ reprPlaceholder))), 1, 0⟩
        else
          match resp.data with
          | none => ⟨.err (.keyError "data"), 1, 0⟩
          | some state =>
            match get_version_status state version with
            | none =>
              let r := wait_until_version_final version overall_timeout_sec started_at rest
              ⟨r.outcome, r.requests + 1, r.sleeps + 1⟩
            | some st =>
              if st = "processing" then
                let r := wait_until_version_final version overall_timeout_sec started_at rest
                ⟨r.outcome, r.requests + 1, r.sleeps⟩
              else if st = "failed" then
                match raise_if_failed state version with
                | some e => ⟨.err e, 1, 0⟩
                | none => ⟨.err (.generationFailed "Generation failed"), 1, 0⟩
              else
                ⟨.ok state, 1, 0⟩

/-- Number of wait requests issued by a run of `main`'s
create-then-wait sequence: `wait_until_version_final` is only reached
when `create_generation` returns normally. -/
def wait_requests_after_create (object_name object_description model ver : String)
    (ct : HttpTransport CreateBody) (overall_timeout_sec : Option Nat)
    (started_at : ℤ) (trace : List WaitStep) : Nat :=
  match create_generation object_name object_description model ver ct with
  | .error _ => 0
  | .ok meta =>
    (wait_until_version_final meta.version overall_timeout_sec started_at trace).requests

/-- Parsed JSON error body as consumed by the `HTTPError` handler of
`_sync_http_bytes_with_content_type`: the optional `error` field
(`j.get("error")`) and the `str(j)` rendering. -/
structure ErrBody where
  error : Option String
  strRepr : String
  deriving DecidableEq

/-- The `try` block inside the `HTTPError` handler of
`_sync_http_bytes_with_content_type`.  It never returns normally: either
`json.loads` fails, or the handler itself raises
`RuntimeError(j.get("error") or str(j))`. -/
def bytes_error_try_block (parsed : Option ErrBody) : Except AppError Empty :=
  match parsed with
  | none => .error (.decodeError "json.loads failed")
  | some j => .error (.requestError (pyOr j.error j.strRepr))

/-- The `HTTPError` branch of `_sync_http_bytes_with_content_type`: the
`except Exception` clause catches every exception raised inside the `try`
block — including the handler's own `RuntimeError` carrying the extracted
`error` field — so the branch always raises `RuntimeError` with the raw
body text. -/
def sync_http_bytes_http_error (parsed : Option ErrBody) (raw : String) : AppError :=
  match bytes_error_try_block parsed with
  | .ok e => e.elim
  | .error _ => .requestError raw

end ObjGen

namespace ObjGen

/-! ## Helper lemmas -/

theorem get_version_status_none_of_no_task {state : ObjectState} {version : String}
    (h : get_version_task state version = none) :
    get_version_status state version = none := by
  unfold get_version_status
  rw [h]

theorem get_version_status_of_task {state : ObjectState} {version : String}
    {tk : TaskRecord} {st : String}
    (h : get_version_task state version = some tk) (hs : tk.status = some st)
    (hmem : st = "processing" ∨ st = "succeeded" ∨ st = "failed") :
    get_version_status state version = some st := by
  simp only [get_version_status, h, hs]
  rw [if_pos hmem]

theorem get_version_status_none_of_unrecognized {state : ObjectState} {version : String}
    {tk : TaskRecord} {st : String}
    (h : get_version_task state version = some tk) (hs : tk.status = some st)
    (h1 : st ≠ "processing") (h2 : st ≠ "succeeded") (h3 : st ≠ "failed") :
    get_version_status state version = none := by
  simp only [get_version_status, h, hs]
  rw [if_neg]
  rintro (hc | hc | hc)
  · exact h1 hc
  · exact h2 hc
  · exact h3 hc

theorem raise_if_failed_of_failed {state : ObjectState} {version : String} {tk : TaskRecord}
    (h : get_version_task state version = some tk) (hs : tk.status = some "failed") :
    raise_if_failed state version
      = some (.generationFailed (pyOr tk.error "Generation failed")) := by
  simp only [raise_if_failed, h, hs]
  rw [if_pos trivial]

/-- Unfolding lemma for one loop iteration whose response is well-formed
(200, truthy `success`, `data` present) but carries no recognised task
status for the version: the loop performs one `asyncio.sleep(0.1)` and
continues on the remaining trace, with no intervening deadline check. -/
theorem wait_cons_not_visible (version : String) (ot : Option Nat) (sa : ℤ)
    (s : WaitStep) (rest : List WaitStep) (e : Option String) (raw : String)
    (state : ObjectState)
    (hp : past_deadline ot sa s.checkTime = false)
    (htr : s.transport = .ok 200 (some ⟨true, e, some state⟩) raw)
    (hst : get_version_status state version = none) :
    wait_until_version_final version ot sa (s :: rest)
      = ⟨(wait_until_version_final version ot sa rest).outcome,
         (wait_until_version_final version ot sa rest).requests + 1,
         (wait_until_version_final version ot sa rest).sleeps + 1⟩ := by
  obtain ⟨time, tr⟩ := s
  simp only at htr
  subst htr
  simp only at hp
  simp [wait_until_version_final, sync_http_json, read_json_bytes, hp, hst]

/-- Decidable characterisation of a "successful but task absent" wait
response: HTTP 200, truthy `success`, `data` present, and no entry of
`tasks` matching the version. -/
def absent_ok_step (version : String) (s : WaitStep) : Bool :=
  match s.transport with
  | .ok status (some b) _ =>
    status == 200 && b.success
      && (match b.data with
          | some state => (get_version_task state version).isNone
          | none => false)
  | _ => false

theorem absent_ok_step_elim {version : String} {s : WaitStep}
    (h : absent_ok_step version s = true) :
    ∃ e raw state, s.transport = .ok 200 (some ⟨true, e, some state⟩) raw ∧
      get_version_task state version = none := by
  obtain ⟨time, tr⟩ := s
  cases tr with
  | ok status parsed raw =>
    cases parsed with
    | none => simp [absent_ok_step] at h
    | some b =>
      obtain ⟨su, e, dat⟩ := b
      cases dat with
      | none => simp [absent_ok_step] at h
      | some state =>
        simp only [absent_ok_step, Bool.and_eq_true, beq_iff_eq,
          Option.isNone_iff_eq_none] at h
        obtain ⟨⟨h200, hsu⟩, htk⟩ := h
        exact ⟨e, raw, state, by rw [h200, hsu], htk⟩
  | httpError code parsed raw => simp [absent_ok_step] at h

/-! ## Claim theorems -/

/-- C1: in a polling run whose three wait responses are well-formed
(HTTP 200, truthy `success`, `data` present) and whose task record for
the version reports status `"processing"`, `"processing"`, `"succeeded"`
in turn, with each iteration starting within the overall deadline,
`wait_until_version_final` returns the object state of the third
response, issues exactly three wait requests, and performs zero
client-side sleeps — in particular none between a `"processing"`
response and the next wait request. -/
theorem wait_processing_processing_succeeded (version : String) (ot : Option Nat) (sa : ℤ)
    (t1 t2 t3 : ℤ) (e1 e2 e3 : Option String) (r1 r2 r3 : String)
    (s1 s2 s3 : ObjectState) (k1 k2 k3 : TaskRecord)
    (hp1 : past_deadline ot sa t1 = false)
    (hp2 : past_deadline ot sa t2 = false)
    (hp3 : past_deadline ot sa t3 = false)
    (hk1 : get_version_task s1 version = some k1) (hs1 : k1.status = some "processing")
    (hk2 : get_version_task s2 version = some k2) (hs2 : k2.status = some "processing")
    (hk3 : get_version_task s3 version = some k3) (hs3 : k3.status = some "succeeded") :
    wait_until_version_final version ot sa
      [⟨t1, .ok 200 (some ⟨true, e1, some s1⟩) r1⟩,
       ⟨t2, .ok 200 (some ⟨true, e2, some s2⟩) r2⟩,
       ⟨t3, .ok 200 (some ⟨true, e3, some s3⟩) r3⟩]
      = ⟨.ok s3, 3, 0⟩ := by
  have h1 := get_version_status_of_task hk1 hs1 (Or.inl rfl)
  have h2 := get_version_status_of_task hk2 hs2 (Or.inl rfl)
  have h3 := get_version_status_of_task hk3 hs3 (Or.inr (Or.inl rfl))
  simp [wait_until_version_final, sync_http_json, read_json_bytes, hp1, hp2, hp3, h1, h2, h3]

/-- Witness for C1 at a concrete processing→processing→succeeded trace. -/
theorem wait_processing_processing_succeeded_witness :
    wait_until_version_final "1" (some 600) 0
      [⟨1, .ok 200 (some ⟨true, none, some ⟨some [⟨some "1", some "processing", none⟩]⟩⟩) ""⟩,
       ⟨2, .ok 200 (some ⟨true, none, some ⟨some [⟨some "1", some "processing", none⟩]⟩⟩) ""⟩,
       ⟨3, .ok 200 (some ⟨true, none, some ⟨some [⟨some "1", some "succeeded", none⟩]⟩⟩) ""⟩]
      = ⟨.ok ⟨some [⟨some "1", some "succeeded", none⟩]⟩, 3, 0⟩ :=
  wait_processing_processing_succeeded "1" (some 600) 0 1 2 3 none none none "" "" ""
    ⟨some [⟨some "1", some "processing", none⟩]⟩
    ⟨some [⟨some "1", some "processing", none⟩]⟩
    ⟨some [⟨some "1", some "succeeded", none⟩]⟩
    ⟨some "1", some "processing", none⟩
    ⟨some "1", some "processing", none⟩
    ⟨some "1", some "succeeded", none⟩
    (by decide) (by decide) (by decide)
    (by decide) rfl (by decide) rfl (by decide) rfl

/-- C5: a well-formed wait response (HTTP 200, truthy `success`, `data`
present) whose tasks list has no record for the version makes the loop
perform one client-side sleep (the fixed `asyncio.sleep(0.1)`) and retry
on the remaining trace.  The equality holds for every continuation trace
and every timeout configuration: between receiving the absent-task
response and the sleep no overall-deadline check intervenes — the
deadline is only re-examined at the top of the next iteration, after the
sleep has already happened. -/
theorem wait_absent_task_sleeps_and_retries (version : String) (ot : Option Nat) (sa : ℤ)
    (time : ℤ) (e : Option String) (raw : String) (state : ObjectState)
    (rest : List WaitStep)
    (hp : past_deadline ot sa time = false)
    (htk : get_version_task state version = none) :
    wait_until_version_final version ot sa
        (⟨time, .ok 200 (some ⟨true, e, some state⟩) raw⟩ :: rest)
      = ⟨(wait_until_version_final version ot sa rest).outcome,
         (wait_until_version_final version ot sa rest).requests + 1,
         (wait_until_version_final version ot sa rest).sleeps + 1⟩ :=
  wait_cons_not_visible version ot sa _ rest e raw state hp rfl
    (get_version_status_none_of_no_task htk)

/-- Witness for C5 at a concrete absent-task response. -/
theorem wait_absent_task_sleeps_and_retries_witness :
    wait_until_version_final "1" (some 600) 0
        [⟨1, .ok 200 (some ⟨true, none, some ⟨some []⟩⟩) ""⟩]
      = ⟨.exhausted, 1, 1⟩ :=
  wait_absent_task_sleeps_and_retries "1" (some 600) 0 1 none "" ⟨some []⟩ []
    (by decide) (by decide)

/-- C8: a wait response with HTTP status 404 makes the loop raise at the
`NotFoundError` site immediately: the run ends with exactly one wait
request issued, for every continuation trace and however much of the
overall deadline remains.  Both transport shapes carrying a 404 are
covered (an `HTTPError` with a JSON or non-JSON body, and a plain 404
status), with the body's `error` field — or, for a non-JSON body, the
synthetic envelope's raw text — feeding the message. -/
theorem wait_404_raises_not_found (version : String) (ot : Option Nat) (sa : ℤ)
    (time : ℤ) (raw : String) (b : WaitBody) (rest : List WaitStep)
    (hp : past_deadline ot sa time = false) :
    (wait_until_version_final version ot sa (⟨time, .httpError 404 (some b) raw⟩ :: rest)
       = ⟨.err (.notFound (pyOr b.error "Object not found")), 1, 0⟩) ∧
    (wait_until_version_final version ot sa (⟨time, .httpError 404 none raw⟩ :: rest)
       = ⟨.err (.notFound (pyOr (some raw) "Object not found")), 1, 0⟩) ∧
    (wait_until_version_final version ot sa (⟨time, .ok 404 (some b) raw⟩ :: rest)
       = ⟨.err (.notFound (pyOr b.error "Object not found")), 1, 0⟩) := by
  refine ⟨?_, ?_, ?_⟩ <;>
    simp [wait_until_version_final, sync_http_json, read_json_bytes, waitFallback, hp]

/-- Witness for C8 at a concrete 404 response with ample deadline left. -/
theorem wait_404_raises_not_found_witness :
    wait_until_version_final "1" (some 600) 0
        [⟨1, .httpError 404 (some ⟨false, some "gone", none⟩) "x"⟩]
      = ⟨.err (.notFound "gone"), 1, 0⟩ := by
  have h := (wait_404_raises_not_found "1" (some 600) 0 1 "x"
    ⟨false, some "gone", none⟩ [] (by decide)).1
  simpa [pyOr] using h

/-- C9: a wait response whose task record for the version carries a
status outside `"processing"`, `"succeeded"`, `"failed"` is treated
exactly like an absent task: `get_version_status` returns `none`, and the
loop sleeps once (`asyncio.sleep(0.1)`) and continues on the remaining
trace — such a response never produces a normal return or a
`GenerationFailedError`, so the run's outcome is whatever the rest of the
trace produces (a later recognised status or the overall timeout). -/
theorem wait_unrecognized_status_retries (version : String) (ot : Option Nat) (sa : ℤ)
    (time : ℤ) (e : Option String) (raw : String) (state : ObjectState)
    (tk : TaskRecord) (st : String) (rest : List WaitStep)
    (hp : past_deadline ot sa time = false)
    (hk : get_version_task state version = some tk)
    (hs : tk.status = some st)
    (h1 : st ≠ "processing") (h2 : st ≠ "succeeded") (h3 : st ≠ "failed") :
    get_version_status state version = none ∧
    wait_until_version_final version ot sa
        (⟨time, .ok 200 (some ⟨true, e, some state⟩) raw⟩ :: rest)
      = ⟨(wait_until_version_final version ot sa rest).outcome,
         (wait_until_version_final version ot sa rest).requests + 1,
         (wait_until_version_final version ot sa rest).sleeps + 1⟩ := by
  have hn := get_version_status_none_of_unrecognized hk hs h1 h2 h3
  exact ⟨hn, wait_cons_not_visible version ot sa _ rest e raw state hp rfl hn⟩

/-- Witness for C9 at a concrete response with unrecognised status
`"queued"`. -/
theorem wait_unrecognized_status_retries_witness :
    get_version_status ⟨some [⟨some "1", some "queued", none⟩]⟩ "1" = none ∧
    wait_until_version_final "1" (some 600) 0
        [⟨1, .ok 200 (some ⟨true, none, some ⟨some [⟨some "1", some "queued", none⟩]⟩⟩) ""⟩]
      = ⟨.exhausted, 1, 1⟩ :=
  wait_unrecognized_status_retries "1" (some 600) 0 1 none ""
    ⟨some [⟨some "1", some "queued", none⟩]⟩ ⟨some "1", some "queued", none⟩ "queued" []
    (by decide) rfl rfl (by decide) (by decide) (by decide)

/-- C3: a well-formed wait response whose task record for the version has
status `"failed"` makes the loop raise at the `GenerationFailedError`
site, with message `t.get("error") or "Generation failed"`; in
particular, when the record carries a truthy error message `msg`, the
raised error carries exactly `msg`.  One request is issued and the run
ends there. -/
theorem wait_failed_raises_generation_failed (version : String) (ot : Option Nat) (sa : ℤ)
    (time : ℤ) (e : Option String) (raw : String) (state : ObjectState)
    (tk : TaskRecord) (rest : List WaitStep)
    (hp : past_deadline ot sa time = false)
    (hk : get_version_task state version = some tk)
    (hs : tk.status = some "failed") :
    (wait_until_version_final version ot sa
        (⟨time, .ok 200 (some ⟨true, e, some state⟩) raw⟩ :: rest)
      = ⟨.err (.generationFailed (pyOr tk.error "Generation failed")), 1, 0⟩) ∧
    (∀ msg, tk.error = some msg → msg ≠ "" →
      wait_until_version_final version ot sa
          (⟨time, .ok 200 (some ⟨true, e, some state⟩) raw⟩ :: rest)
        = ⟨.err (.generationFailed msg), 1, 0⟩) := by
  have hst := get_version_status_of_task hk hs (Or.inr (Or.inr rfl))
  have hrf := raise_if_failed_of_failed hk hs
  constructor
  · simp [wait_until_version_final, sync_http_json, read_json_bytes, hp, hst, hrf]
  · intro msg hmsg hne
    have hm : pyOr tk.error "Generation failed" = msg := by
      simp [pyOr, hmsg, hne]
    simp [wait_until_version_final, sync_http_json, read_json_bytes, hp, hst, hrf, hm]

/-- Witness for C3 at a concrete failed task carrying error message
`"boom"`. -/
theorem wait_failed_raises_generation_failed_witness :
    wait_until_version_final "1" (some 600) 0
        [⟨1, .ok 200 (some ⟨true, none, some ⟨some [⟨some "1", some "failed", some "boom"⟩]⟩⟩) ""⟩]
      = ⟨.err (.generationFailed "boom"), 1, 0⟩ :=
  (wait_failed_raises_generation_failed "1" (some 600) 0 1 none ""
      ⟨some [⟨some "1", some "failed", some "boom"⟩]⟩
      ⟨some "1", some "failed", some "boom"⟩ []
      (by decide) rfl rfl).2 "boom" rfl (by decide)

/-- C2: with a finite overall timeout, if every wait response of the run
is successful (HTTP 200, truthy `success`, `data` present) but the
version's task is absent from the returned tasks list, the loop never
returns normally; and as soon as some iteration begins with the
wall-clock past `started_at + overall_timeout_sec`, the run fails with
the `TimeoutError`. -/
theorem wait_absent_forever_times_out (version : String) (T : Nat) (sa : ℤ)
    (trace : List WaitStep)
    (habs : ∀ s ∈ trace, absent_ok_step version s = true) :
    (∀ state, (wait_until_version_final version (some T) sa trace).outcome
        ≠ .ok state) ∧
    ((∃ s ∈ trace, sa + (T : ℤ) < s.checkTime) →
      (wait_until_version_final version (some T) sa trace).outcome
        = .err (.timeout ("Overall timeout reached (" ++ toString T ++ "s)"))) := by
  induction trace with
  | nil =>
    refine ⟨?_, ?_⟩
    · intro state h
      simp [wait_until_version_final] at h
    · rintro ⟨s, hs, -⟩
      exact absurd hs (List.not_mem_nil s)
  | cons s rest ih =>
    have hs0 : absent_ok_step version s = true := habs s (List.mem_cons_self s rest)
    have habs2 : ∀ x ∈ rest, absent_ok_step version x = true :=
      fun x hx => habs x (List.mem_cons_of_mem s hx)
    obtain ⟨ih1, ih2⟩ := ih habs2
    by_cases hp : past_deadline (some T) sa s.checkTime = true
    · have hrun : wait_until_version_final version (some T) sa (s :: rest)
          = ⟨.err (.timeout ("Overall timeout reached (" ++ toString T ++ "s)")), 0, 0⟩ := by
        obtain ⟨time, tr⟩ := s
        simp only at hp
        simp [wait_until_version_final, hp]
      refine ⟨?_, fun _ => by rw [hrun]⟩
      intro state h
      rw [hrun] at h
      exact absurd h (by simp)
    · have hp2 : past_deadline (some T) sa s.checkTime = false := by
        simpa using hp
      obtain ⟨e, raw, state, htr, htk⟩ := absent_ok_step_elim hs0
      rw [wait_cons_not_visible version (some T) sa s rest e raw state hp2 htr
        (get_version_status_none_of_no_task htk)]
      refine ⟨fun st h => ih1 st h, ?_⟩
      rintro ⟨x, hx, hlt⟩
      rcases List.mem_cons.mp hx with rfl | hxr
      · exfalso
        have hn : ¬ (sa + (T : ℤ) < x.checkTime) := by
          simpa [past_deadline] using hp2
        exact hn hlt
      · exact ih2 ⟨x, hxr, hlt⟩

/-- Witness for C2: two successful responses with an empty tasks list,
the second arriving past the 600-second deadline. -/
theorem wait_absent_forever_times_out_witness :
    (wait_until_version_final "1" (some 600) 0
        [⟨1, .ok 200 (some ⟨true, none, some ⟨some []⟩⟩) ""⟩,
         ⟨601, .ok 200 (some ⟨true, none, some ⟨some []⟩⟩) ""⟩]).outcome
      ≠ .ok ⟨some []⟩ ∧
    (wait_until_version_final "1" (some 600) 0
        [⟨1, .ok 200 (some ⟨true, none, some ⟨some []⟩⟩) ""⟩,
         ⟨601, .ok 200 (some ⟨true, none, some ⟨some []⟩⟩) ""⟩]).outcome
      = .err (.timeout ("Overall timeout reached (" ++ toString 600 ++ "s)")) := by
  have h := wait_absent_forever_times_out "1" 600 0
    [⟨1, .ok 200 (some ⟨true, none, some ⟨some []⟩⟩) ""⟩,
     ⟨601, .ok 200 (some ⟨true, none, some ⟨some []⟩⟩) ""⟩] (by decide)
  exact ⟨h.1 ⟨some []⟩,
    h.2 ⟨⟨601, .ok 200 (some ⟨true, none, some ⟨some []⟩⟩) ""⟩, by decide, by decide⟩⟩

/-- Test whether a `create_generation` result is a `requestError`. -/
def resultIsRequestError {α : Type} : Except AppError α → Bool
  | .error (.requestError _) => true
  | _ => false

/-- C4 counterexample: a creation response with HTTP 200, a truthy
success flag and a non-string `data.id` makes `create_generation` fail
with `TypeError("id is not string")` — a `typeError`, not the
`requestError` the claim asserts for this case. -/
theorem create_nonstring_id_not_request_error_cex :
    create_generation "obj" "desc" "model-x" "170"
        (.ok 200 (some ⟨true, none, some ⟨some .jother⟩⟩) "raw")
      = .error (.typeError "id is not string") ∧
    resultIsRequestError (create_generation "obj" "desc" "model-x" "170"
        (.ok 200 (some ⟨true, none, some ⟨some .jother⟩⟩) "raw")) = false :=
  ⟨rfl, rfl⟩

/-- C4 amended: `create_generation` fails at the `RequestError` site
whenever the creation response has a non-200 HTTP status or a falsy
success flag; when `data` or `data.id` is missing it fails with a
`KeyError`, and when `data.id` is a non-string it fails with a
`TypeError` — in each of these cases before any wait call is attempted
(zero wait requests are issued); on success it returns an
`ObjectMetadata` carrying the server-assigned id. -/
theorem create_generation_error_classification
    (object_name object_description model ver raw : String)
    (status : Nat) (body : CreateBody) (ot : Option Nat) (sa : ℤ)
    (trace : List WaitStep) :
    ((status ≠ 200 ∨ body.success = false) →
      ∃ msg, create_generation object_name object_description model ver
          (.ok status (some body) raw) = .error (.requestError msg)) ∧
    (status = 200 → body.success = true → body.data = none →
      create_generation object_name object_description model ver
          (.ok status (some body) raw) = .error (.keyError "data") ∧
      wait_requests_after_create object_name object_description model ver
          (.ok status (some body) raw) ot sa trace = 0) ∧
    (∀ d, status = 200 → body.success = true → body.data = some d → d.id = none →
      create_generation object_name object_description model ver
          (.ok status (some body) raw) = .error (.keyError "id") ∧
      wait_requests_after_create object_name object_description model ver
          (.ok status (some body) raw) ot sa trace = 0) ∧
    (∀ d, status = 200 → body.success = true → body.data = some d →
        d.id = some .jother →
      create_generation object_name object_description model ver
          (.ok status (some body) raw) = .error (.typeError "id is not string") ∧
      wait_requests_after_create object_name object_description model ver
          (.ok status (some body) raw) ot sa trace = 0) ∧
    (∀ d tid, status = 200 → body.success = true → body.data = some d →
        d.id = some (.jstr tid) →
      create_generation object_name object_description model ver
          (.ok status (some body) raw)
        = .ok ⟨tid, ver, object_name, object_description⟩) := by
  obtain ⟨su, er, dat⟩ := body
  refine ⟨?_, ?_, ?_, ?_, ?_⟩
  · intro hbad
    refine ⟨pyOr er ("Failed to create generation: " ++ reprPlaceholder), ?_⟩
    simp only [create_generation, sync_http_json, read_json_bytes]
    rw [if_pos]
    exact hbad
  · intro h200 hsu hdat
    subst h200
    subst hsu
    simp only at hdat
    subst hdat
    exact ⟨by simp [create_generation, sync_http_json, read_json_bytes],
      by simp [wait_requests_after_create, create_generation, sync_http_json, read_json_bytes]⟩
  · intro d h200 hsu hdat hid
    subst h200
    subst hsu
    simp only at hdat
    subst hdat
    exact ⟨by simp [create_generation, sync_http_json, read_json_bytes, hid],
      by simp [wait_requests_after_create, create_generation, sync_http_json,
        read_json_bytes, hid]⟩
  · intro d h200 hsu hdat hid
    subst h200
    subst hsu
    simp only at hdat
    subst hdat
    exact ⟨by simp [create_generation, sync_http_json, read_json_bytes, hid],
      by simp [wait_requests_after_create, create_generation, sync_http_json,
        read_json_bytes, hid]⟩
  · intro d tid h200 hsu hdat hid
    subst h200
    subst hsu
    simp only at hdat
    subst hdat
    simp [create_generation, sync_http_json, read_json_bytes, hid]

/-- Witness for C4 (amended): a non-string id fails with `TypeError` and
issues zero wait requests even with a wait trace available, while a
string id yields the metadata. -/
theorem create_generation_error_classification_witness :
    (create_generation "n" "d" "m" "1"
        (.ok 200 (some ⟨true, none, some ⟨some .jother⟩⟩) "")
      = .error (.typeError "id is not string") ∧
     wait_requests_after_create "n" "d" "m" "1"
        (.ok 200 (some ⟨true, none, some ⟨some .jother⟩⟩) "") (some 600) 0
        [⟨1, .ok 200 (some ⟨true, none, some ⟨some []⟩⟩) ""⟩] = 0) ∧
    create_generation "n" "d" "m" "1"
        (.ok 200 (some ⟨true, none, some ⟨some (.jstr "abc")⟩⟩) "")
      = .ok ⟨"abc", "1", "n", "d"⟩ :=
  ⟨(create_generation_error_classification "n" "d" "m" "1" "" 200
      ⟨true, none, some ⟨some .jother⟩⟩ (some 600) 0
      [⟨1, .ok 200 (some ⟨true, none, some ⟨some []⟩⟩) ""⟩]).2.2.2.1
      ⟨some .jother⟩ rfl rfl rfl rfl,
   (create_generation_error_classification "n" "d" "m" "1" "" 200
      ⟨true, none, some ⟨some (.jstr "abc")⟩⟩ (some 600) 0 []).2.2.2.2
      ⟨some (.jstr "abc")⟩ "abc" rfl rfl rfl rfl⟩

/-- C6 (code bug): in the `HTTPError` handler of
`_sync_http_bytes_with_content_type` the `except Exception` clause
catches the handler's own `raise RuntimeError(j.get("error") or str(j))`,
so even when the error body is JSON with a truthy `error` field the
raised error carries the raw body text — never the server-provided
message, contrary to the documented intent. -/
theorem bytes_error_message_ignores_json_error_field :
    sync_http_bytes_http_error
        (some ⟨some "boom", "\x7b\"error\": \"boom\"\x7d"⟩)
        "\x7b\"error\": \"boom\"\x7d"
      = .requestError "\x7b\"error\": \"boom\"\x7d" ∧
    sync_http_bytes_http_error
        (some ⟨some "boom", "\x7b\"error\": \"boom\"\x7d"⟩)
        "\x7b\"error\": \"boom\"\x7d"
      ≠ .requestError "boom" :=
  ⟨rfl, by decide⟩

/-- Test whether a loop outcome is a `decodeError`. -/
def outcomeIsDecodeError : WaitOutcome → Bool
  | .err (.decodeError _) => true
  | _ => false

/-- C7 counterexample: a wait response that is an HTTP error (status 500)
with a non-JSON body does not fail with a `DecodeError` — `_sync_http_json`
folds the body into the synthetic failure envelope and the loop raises at
the `RequestError` site with the raw body text. -/
theorem nonjson_httperror_not_decode_error_cex :
    (wait_until_version_final "1" (some 600) 0
        [⟨1, .httpError 500 none "oops"⟩]).outcome
      = .err (.requestError "oops") ∧
    outcomeIsDecodeError (wait_until_version_final "1" (some 600) 0
        [⟨1, .httpError 500 none "oops"⟩]).outcome = false :=
  ⟨by decide, by decide⟩

/-- C7 amended: on a JSON endpoint, a response whose transport succeeded
(`urlopen` returned) with a body that is not valid JSON fails at the
`DecodeError` site — an error kind distinct from the `RequestError`
failures — whatever the HTTP status; a non-JSON body on an HTTP-error
response is instead folded into the synthetic failure envelope and
surfaces through the loop's ordinary status classification with the raw
body text as message: at the `NotFoundError` site when the status is
404, and at the `RequestError` site for every other status (the
envelope's success flag is false, so this covers code 200 as well). -/
theorem nonjson_ok_body_decode_error (version : String) (ot : Option Nat) (sa : ℤ)
    (time : ℤ) (status code : Nat) (raw : String) (rest : List WaitStep)
    (hp : past_deadline ot sa time = false)
    (hc404 : code ≠ 404) :
    (wait_until_version_final version ot sa (⟨time, .ok status none raw⟩ :: rest)
       = ⟨.err (.decodeError ("Non-JSON response: " ++ raw.take 200)), 1, 0⟩) ∧
    (outcomeIsDecodeError
        (.err (.decodeError ("Non-JSON response: " ++ raw.take 200))) = true ∧
     ∀ msg, outcomeIsDecodeError (.err (.requestError msg)) = false) ∧
    (wait_until_version_final version ot sa (⟨time, .httpError code none raw⟩ :: rest)
       = ⟨.err (.requestError (pyOr (some raw)
           ("Wait failed: " ++ reprPlaceholder))), 1, 0⟩) ∧
    (wait_until_version_final version ot sa (⟨time, .httpError 404 none raw⟩ :: rest)
       = ⟨.err (.notFound (pyOr (some raw) "Object not found")), 1, 0⟩) := by
  refine ⟨?_, ⟨rfl, fun msg => rfl⟩, ?_, ?_⟩
  · simp [wait_until_version_final, sync_http_json, read_json_bytes, hp]
  · simp [wait_until_version_final, sync_http_json, waitFallback, hp, hc404]
  · simp [wait_until_version_final, sync_http_json, waitFallback, hp]

/-- Witness for C7 (amended) at a concrete non-JSON body, covering the
transport-success, non-404 HTTP-error and 404 HTTP-error cases. -/
theorem nonjson_ok_body_decode_error_witness :
    wait_until_version_final "1" (some 600) 0 [⟨1, .ok 200 none "<html>"⟩]
      = ⟨.err (.decodeError ("Non-JSON response: " ++ "<html>".take 200)), 1, 0⟩ ∧
    wait_until_version_final "1" (some 600) 0 [⟨1, .httpError 500 none "<html>"⟩]
      = ⟨.err (.requestError (pyOr (some "<html>")
          ("Wait failed: " ++ reprPlaceholder))), 1, 0⟩ ∧
    wait_until_version_final "1" (some 600) 0 [⟨1, .httpError 404 none "<html>"⟩]
      = ⟨.err (.notFound (pyOr (some "<html>") "Object not found")), 1, 0⟩ := by
  have h := nonjson_ok_body_decode_error "1" (some 600) 0 1 200 500 "<html>" []
    (by decide) (by decide)
  exact ⟨h.1, h.2.2.1, h.2.2.2⟩

end ObjGen
